import Mathlib

/-!
Verification of the lifecycle orchestrator of the smart-environmental-monitor
repository (`src/src/main.py`, class `Application`, plus the `health_check`
endpoint closure of `create_app`).

The two collaborator services (`SensorSimulator`, `DataProcessor`) live in
modules that are not part of the sources; only their capability contract
(`start` / `stop` / `is_running`, spec section 4.1) is known, so their behaviour
is a free parameter of the model (`SvcBehavior`), and the effect of a
conforming `start`/`stop` is modelled from the spec where marked.

Exceptions are modelled explicitly: every operation result records the
exception that escaped it (if any), the exceptions that were caught and
logged, and whether the operation hung forever on an `await`.
-/

namespace EnvMonitor

/-- Exception values crossing the orchestrator boundary: ordinary Python
exceptions carrying a message.  `asyncio.CancelledError` never escapes any
modelled operation (the source swallows it), so it needs no constructor;
swallowing it is handled structurally. -/
inductive PyExn where
  | exn (msg : String)
  deriving DecidableEq, Repr

/-- Modelled from the spec: behaviour of one collaborator Service (the sensor
simulator or the data processor).  The concrete classes live in
`src/data_ingestion/sensor_simulator.py` and `src/processing/data_processor.py`,
which are not part of the sources; the spec gives only the
`start`/`stop`/`is_running` capability contract (section 4.1).  The fields
quantify over the behaviours the spec's claims mention: a constructor that
raises with a given cause, a `stop()` that raises or hangs, and a spawned
task that ignores cancellation. -/
structure SvcBehavior where
  ctorFail : Option String
  stopRaise : Option String
  stopHangs : Bool
  taskIgnoresCancel : Bool
  deriving DecidableEq, Repr

/-- The fixed pair of collaborator behaviours an execution runs against. -/
structure Env where
  sensors : SvcBehavior
  processor : SvcBehavior
  deriving DecidableEq, Repr

/-- In-memory state of one constructed service object: its `is_running`
attribute, plus an instrumentation counter of how many times `stop()` has
been entered (used to state the rollback claims; not program state). -/
structure Svc where
  is_running : Bool
  stopCalls : Nat
  deriving DecidableEq, Repr

/-- Modelled from the spec: a freshly constructed Service is not yet running
(section 4.1: `start()` begins the work loop; section 3: lifecycle
created then started). -/
def newSvc : Svc := ⟨false, 0⟩

/-- Modelled from the spec: the work loop of a spawned `Service.start()`
begins running, so the service reports `is_running` (section 8 scenario:
after successful startup both services report running). -/
def Svc.beginRunning (v : Svc) : Svc := ⟨true, v.stopCalls⟩

/-- Modelled from the spec: a conforming `Service.stop()` clears
`is_running` and is idempotent (section 4.1).  The counter records the
invocation. -/
def Svc.stopOk (v : Svc) : Svc := ⟨false, v.stopCalls + 1⟩

/-- Status of an asyncio task: still running, or finished (completed or
cancelled - the distinction never matters to the orchestrator, which
swallows `CancelledError` when awaiting). -/
inductive TaskStatus where
  | running
  | done
  deriving DecidableEq, Repr

/-- One background task created by `Application._start_background_services`
via `asyncio.create_task`, with the behaviour flag of the coroutine it
wraps. -/
structure BgTask where
  name : String
  ignoresCancel : Bool
  status : TaskStatus
  deriving DecidableEq, Repr

/-- A task after it has been cancelled and awaited. -/
def BgTask.markDone (t : BgTask) : BgTask := ⟨t.name, t.ignoresCancel, TaskStatus.done⟩

/-- The mutable attributes set by `Application.__init__` (main.py lines
36-40): `sensor_simulator` and `data_processor` start as `None`,
`background_tasks` as the empty list.  `self.settings` is configuration
plumbing with no lifecycle content and is omitted. -/
structure AppState where
  sensor_simulator : Option Svc
  data_processor : Option Svc
  background_tasks : List BgTask
  deriving DecidableEq, Repr

/-- The state right after `Application.__init__`. -/
def AppState.init : AppState := ⟨none, none, []⟩

/-- Observable operation events, used to state the ordering claims:
service construction, `asyncio.create_task` spawns, `task.cancel()`,
`await task`, and entering a service's `stop()`. -/
inductive Event where
  | ctorSensor
  | ctorProcessor
  | spawn (name : String)
  | cancel (name : String)
  | awaitTask (name : String)
  | stopCall (name : String)
  deriving DecidableEq, Repr

def Event.isCtor : Event → Bool
  | Event.ctorSensor => true
  | Event.ctorProcessor => true
  | _ => false

def Event.isSpawn : Event → Bool
  | Event.spawn _ => true
  | _ => false

def Event.isCancel : Event → Bool
  | Event.cancel _ => true
  | _ => false

def Event.isAwait : Event → Bool
  | Event.awaitTask _ => true
  | _ => false

def Event.isStop : Event → Bool
  | Event.stopCall _ => true
  | _ => false

/-- Every element of `es` satisfying `p` occurs strictly before every
element satisfying `q`: after any `q`-element, no `p`-element follows. -/
def beforeAll (p q : Event → Bool) : List Event → Bool
  | [] => true
  | e :: es =>
      if q e then es.all (fun x => !(p x)) && beforeAll p q es
      else beforeAll p q es

/-- Result of `Application.startup`: the application state after the call
(attribute assignments made before a failing statement persist), the
exception that escaped (the bare `raise` in the except-block rethrows the
original exception unchanged), and the event trace. -/
structure StartupResult where
  state : AppState
  err : Option PyExn
  events : List Event
  deriving DecidableEq, Repr

/-- `Application._start_background_services` (main.py lines 86-103): wraps
each service's `start()` coroutine in an `asyncio.create_task` with the
names `sensor_simulator` and `data_processor`, appending each task to
`background_tasks`.  Spawning is fire-and-continue.  In the source this
helper only runs after both attributes have been assigned, so the
`Option.map` is always over `some`. -/
def startBackgroundServices (env : Env) (s : AppState) : AppState × List Event :=
  let t1 : BgTask := ⟨"sensor_simulator", env.sensors.taskIgnoresCancel, TaskStatus.running⟩
  let s1 : AppState :=
    ⟨s.sensor_simulator.map Svc.beginRunning, s.data_processor,
      s.background_tasks ++ [t1]⟩
  let t2 : BgTask := ⟨"data_processor", env.processor.taskIgnoresCancel, TaskStatus.running⟩
  let s2 : AppState :=
    ⟨s1.sensor_simulator, s1.data_processor.map Svc.beginRunning,
      s1.background_tasks ++ [t2]⟩
  (s2, [Event.spawn "sensor_simulator", Event.spawn "data_processor"])

/-- `Application.startup` (main.py lines 42-58): construct the sensor
simulator, construct the data processor, then start the background
services.  The surrounding try/except logs and re-raises the original
exception with a bare `raise`, so the function is transparent to errors:
no wrapping, no rollback, no state-machine bookkeeping.  An attribute
assigned before the failing statement keeps its new value; the assignment
whose right-hand side raised does not happen. -/
def startup (env : Env) (s : AppState) : StartupResult :=
  match env.sensors.ctorFail with
  | some msg => ⟨s, some (PyExn.exn msg), []⟩
  | none =>
      let s1 : AppState := ⟨some newSvc, s.data_processor, s.background_tasks⟩
      match env.processor.ctorFail with
      | some msg => ⟨s1, some (PyExn.exn msg), [Event.ctorSensor]⟩
      | none =>
          let s2 : AppState := ⟨s1.sensor_simulator, some newSvc, s1.background_tasks⟩
          let r := startBackgroundServices env s2
          ⟨r.1, none, Event.ctorSensor :: Event.ctorProcessor :: r.2⟩

/-- Result of the task-cancellation loop in `Application.shutdown`. -/
structure CancelResult where
  tasks : List BgTask
  events : List Event
  hung : Bool
  deriving DecidableEq, Repr

/-- The loop of `Application.shutdown` (main.py lines 66-71): for each task
in list order, `task.cancel()` and then `await task`, swallowing
`CancelledError`.  Awaiting a still-running task whose coroutine ignores
cancellation never returns, so later tasks are never reached.  There is no
timeout and no forced teardown. -/
def cancelTasks : List BgTask → CancelResult
  | [] => ⟨[], [], false⟩
  | t :: ts =>
      if t.status = TaskStatus.running ∧ t.ignoresCancel = true then
        ⟨t :: ts, [Event.cancel t.name, Event.awaitTask t.name], true⟩
      else
        let r := cancelTasks ts
        ⟨t.markDone :: r.tasks,
          Event.cancel t.name :: Event.awaitTask t.name :: r.events, r.hung⟩

/-- Outcome of one guarded `await service.stop()` (main.py lines 74-79):
the attribute is `None` so the guard skips it; or the call hangs; or it
raises; or it returns cleanly.  Whenever `stop()` is actually entered the
invocation counter increments. -/
inductive StopOutcome where
  | skipped
  | hung (v : Svc)
  | raised (msg : String) (v : Svc)
  | ok (v : Svc)
  deriving DecidableEq, Repr

def stopAttempt (b : SvcBehavior) : Option Svc → StopOutcome
  | none => StopOutcome.skipped
  | some v =>
      if b.stopHangs then StopOutcome.hung ⟨v.is_running, v.stopCalls + 1⟩
      else
        match b.stopRaise with
        | some msg => StopOutcome.raised msg ⟨v.is_running, v.stopCalls + 1⟩
        | none => StopOutcome.ok (Svc.stopOk v)

/-- Result of `Application.shutdown`: final state, the exception escaping
the call (always `none`: the outer except-block catches every `Exception`),
the exceptions it caught and logged, the event trace, and whether the call
hung forever on some `await`. -/
structure ShutdownResult where
  state : AppState
  raised : Option PyExn
  logged : List PyExn
  events : List Event
  hangs : Bool
  deriving DecidableEq, Repr

/-- Second half of `Application.shutdown`: the guarded
`await self.data_processor.stop()`.  A raised exception jumps to the outer
except-block, where it is logged. -/
def stopProcessorPhase (env : Env) (s : AppState) (evs : List Event) : ShutdownResult :=
  match stopAttempt env.processor s.data_processor with
  | StopOutcome.skipped => ⟨s, none, [], evs, false⟩
  | StopOutcome.hung v =>
      ⟨⟨s.sensor_simulator, some v, s.background_tasks⟩, none, [],
        evs ++ [Event.stopCall "data_processor"], true⟩
  | StopOutcome.raised msg v =>
      ⟨⟨s.sensor_simulator, some v, s.background_tasks⟩, none, [PyExn.exn msg],
        evs ++ [Event.stopCall "data_processor"], false⟩
  | StopOutcome.ok v =>
      ⟨⟨s.sensor_simulator, some v, s.background_tasks⟩, none, [],
        evs ++ [Event.stopCall "data_processor"], false⟩

/-- `Application.shutdown` (main.py lines 60-84): cancel and await each
background task in order, then stop the sensor simulator (if set), then
stop the data processor (if set).  The whole body is wrapped in
`try ... except Exception`, which logs the error and returns normally, so
an exception from `sensor_simulator.stop()` skips the data-processor stop
but never escapes `shutdown`.  Nothing bounds a hanging `await`. -/
def shutdown (env : Env) (s : AppState) : ShutdownResult :=
  let c := cancelTasks s.background_tasks
  let s1 : AppState := ⟨s.sensor_simulator, s.data_processor, c.tasks⟩
  if c.hung then ⟨s1, none, [], c.events, true⟩
  else
    match stopAttempt env.sensors s1.sensor_simulator with
    | StopOutcome.skipped => stopProcessorPhase env s1 c.events
    | StopOutcome.hung v =>
        ⟨⟨some v, s1.data_processor, s1.background_tasks⟩, none, [],
          c.events ++ [Event.stopCall "sensor_simulator"], true⟩
    | StopOutcome.raised msg v =>
        ⟨⟨some v, s1.data_processor, s1.background_tasks⟩, none, [PyExn.exn msg],
          c.events ++ [Event.stopCall "sensor_simulator"], false⟩
    | StopOutcome.ok v =>
        stopProcessorPhase env ⟨some v, s1.data_processor, s1.background_tasks⟩
          (c.events ++ [Event.stopCall "sensor_simulator"])

/-- The health snapshot returned by the `health_check` endpoint.  The
`environment` and `version` fields of the source dict are configuration
pass-through with no logic and are omitted. -/
structure HealthSnapshot where
  status : String
  sensors : Bool
  processor : Bool
  deriving DecidableEq, Repr

/-- The `health_check` endpoint of `create_app` (main.py lines 149-160):
the `status` field is the string literal "healthy"; the per-service flags
read `is_running` when the corresponding attribute is set and are `False`
when it is still `None`. -/
def health_check (s : AppState) : HealthSnapshot :=
  ⟨"healthy",
    match s.sensor_simulator with
    | some v => v.is_running
    | none => false,
    match s.data_processor with
    | some v => v.is_running
    | none => false⟩

/-- The externally observable part of the application state: the two
`is_running` flags health reads (or `none` for an unset attribute) and the
task statuses.  The ghost stop-invocation counters are not observable. -/
def observable (s : AppState) : Option Bool × Option Bool × List BgTask :=
  (s.sensor_simulator.map Svc.is_running,
   s.data_processor.map Svc.is_running,
   s.background_tasks)

/-- A well-behaved service: constructor succeeds, `stop()` returns cleanly,
its task honours cancellation. -/
def benignB : SvcBehavior := ⟨none, none, false, false⟩

/-- Both collaborators well-behaved. -/
def benignEnv : Env := ⟨benignB, benignB⟩

/-- The sensor simulator's constructor raises with cause "config missing". -/
def sensorCtorFailEnv : Env := ⟨⟨some "config missing", none, false, false⟩, benignB⟩

/-- The data processor's constructor raises with cause "config missing". -/
def processorCtorFailEnv : Env := ⟨benignB, ⟨some "config missing", none, false, false⟩⟩

/-- The sensor simulator's `stop()` hangs forever. -/
def sensorStopHangsEnv : Env := ⟨⟨none, none, true, false⟩, benignB⟩

/-- The state after a successful benign startup from a fresh application. -/
def runningState : AppState := (startup benignEnv AppState.init).state

/-- The state after a benign startup followed by a benign shutdown. -/
def stoppedState : AppState := (shutdown benignEnv runningState).state

/-! ### Helper lemmas -/

theorem beforeAll_of_all_not_left (p q : Event → Bool) (ys : List Event)
    (hy : ys.all (fun e => !(p e)) = true) : beforeAll p q ys = true := by
  induction ys with
  | nil => rfl
  | cons y ys ih =>
      simp only [List.all_cons, Bool.and_eq_true] at hy
      unfold beforeAll
      by_cases hq : q y = true
      · simp [hq, hy.2, ih hy.2]
      · simp [hq, ih hy.2]

theorem beforeAll_of_all_not_right (p q : Event → Bool) (xs : List Event)
    (hx : xs.all (fun e => !(q e)) = true) : beforeAll p q xs = true := by
  induction xs with
  | nil => rfl
  | cons x xs ih =>
      simp only [List.all_cons, Bool.and_eq_true] at hx
      have hqx : q x = false := by
        cases hqx' : q x
        · rfl
        · rw [hqx'] at hx
          simp at hx
      unfold beforeAll
      simp [hqx, ih hx.2]

theorem beforeAll_append (p q : Event → Bool) (xs ys : List Event)
    (hx : xs.all (fun e => !(q e)) = true)
    (hy : ys.all (fun e => !(p e)) = true) :
    beforeAll p q (xs ++ ys) = true := by
  induction xs with
  | nil => simpa using beforeAll_of_all_not_left p q ys hy
  | cons x xs ih =>
      simp only [List.all_cons, Bool.and_eq_true] at hx
      have hqx : q x = false := by
        cases hqx' : q x
        · rfl
        · rw [hqx'] at hx
          simp at hx
      rw [List.cons_append]
      unfold beforeAll
      simp [hqx, ih hx.2]

theorem cancelTasks_events_cancel_or_await (ts : List BgTask) :
    (cancelTasks ts).events.all (fun e => e.isCancel || e.isAwait) = true := by
  induction ts with
  | nil => rfl
  | cons t ts ih =>
      unfold cancelTasks
      by_cases h : t.status = TaskStatus.running ∧ t.ignoresCancel = true
      · simp [h, Event.isCancel, Event.isAwait]
      · rw [if_neg h]
        simp only [List.all_cons, Bool.and_eq_true]
        exact ⟨by simp [Event.isCancel], by simp [Event.isAwait], ih⟩

theorem all_not_stop_of_cancel_or_await (es : List Event)
    (h : es.all (fun e => e.isCancel || e.isAwait) = true) :
    es.all (fun e => !(e.isStop)) = true := by
  induction es with
  | nil => rfl
  | cons e es ih =>
      simp only [List.all_cons, Bool.and_eq_true] at h ⊢
      refine ⟨?_, ih h.2⟩
      cases e <;> simp [Event.isStop, Event.isCancel, Event.isAwait] at *

theorem beforeAll_ca_stop (es rest : List Event)
    (h : es.all (fun e => e.isCancel || e.isAwait) = true)
    (hr : rest.all (fun e => !(e.isCancel || e.isAwait)) = true) :
    beforeAll (fun e => e.isCancel || e.isAwait) Event.isStop (es ++ rest) = true :=
  beforeAll_append _ _ es rest (all_not_stop_of_cancel_or_await es h) hr

theorem cancelTasks_tasks_of_not_hung (ts : List BgTask)
    (h : (cancelTasks ts).hung = false) :
    (cancelTasks ts).tasks = ts.map BgTask.markDone := by
  induction ts with
  | nil => rfl
  | cons t ts ih =>
      unfold cancelTasks at h ⊢
      by_cases hc : t.status = TaskStatus.running ∧ t.ignoresCancel = true
      · simp [hc] at h
      · simp only [if_neg hc] at h ⊢
        simp [ih h]

theorem cancelTasks_of_all_done (ts : List BgTask)
    (h : ∀ t ∈ ts, t.status = TaskStatus.done) :
    (cancelTasks ts).tasks = ts ∧ (cancelTasks ts).hung = false := by
  induction ts with
  | nil => exact ⟨rfl, rfl⟩
  | cons t ts ih =>
      have ht : t.status = TaskStatus.done := h t (by simp)
      have hcond : ¬(t.status = TaskStatus.running ∧ t.ignoresCancel = true) := by
        simp [ht]
      have hrest := ih (fun x hx => h x (by simp [hx]))
      unfold cancelTasks
      rw [if_neg hcond]
      refine ⟨?_, by simp [hrest.2]⟩
      obtain ⟨n, ic, st⟩ := t
      simp only at ht
      subst ht
      simp [BgTask.markDone, hrest.1]

theorem markDone_all_done (ts : List BgTask) :
    ∀ t ∈ ts.map BgTask.markDone, t.status = TaskStatus.done := by
  intro t ht
  simp only [List.mem_map] at ht
  obtain ⟨u, _, rfl⟩ := ht
  rfl

theorem cancelTasks_not_hung_of_no_ignore (ts : List BgTask)
    (h : ∀ t ∈ ts, t.ignoresCancel = false) : (cancelTasks ts).hung = false := by
  induction ts with
  | nil => rfl
  | cons t ts ih =>
      have ht := h t (by simp)
      unfold cancelTasks
      rw [if_neg (by simp [ht])]
      exact ih (fun x hx => h x (by simp [hx]))

/-! ### Claim C1 -/

/-- C1, counterexample: the claim says that after a successful `startup()`
the overall status of `health()` is `healthy` iff every service's
`is_running()` is true, and `degraded` otherwise.  After a successful
benign startup followed by a benign shutdown, no service is running, yet
the endpoint still reports the overall status "healthy", never "degraded":
the source returns the string literal "healthy" unconditionally. -/
theorem C1_counterexample :
    (startup benignEnv AppState.init).err = none ∧
    (health_check stoppedState).sensors = false ∧
    (health_check stoppedState).processor = false ∧
    (health_check stoppedState).status = "healthy" ∧
    (health_check stoppedState).status ≠ "degraded" := by
  refine ⟨rfl, rfl, rfl, rfl, ?_⟩
  decide

/-- C1, amended: the overall status field of the health snapshot is the
constant string "healthy" in every application state; only the per-service
flags reflect `is_running`. -/
theorem C1_health_status_always_healthy (s : AppState) :
    (health_check s).status = "healthy" := rfl

/-! ### Claim C2 -/

/-- C2, counterexample: the claim says `shutdown()` before any `startup()`
fails with `InvalidLifecycleTransition`, and `startup()` when not
`Uninitialized` also fails.  In the source there is no lifecycle state at
all: `shutdown()` on a fresh application completes without raising and
leaves the state unchanged, and a second `startup()` from the running
state also succeeds. -/
theorem C2_counterexample :
    (shutdown benignEnv AppState.init).raised = none ∧
    (shutdown benignEnv AppState.init).state = AppState.init ∧
    (startup benignEnv runningState).err = none := ⟨rfl, rfl, rfl⟩

/-- C2, amended: the source performs no lifecycle-state checks.
`shutdown()` on a fresh application is a harmless no-op that completes
without raising and leaves the state unchanged, and `startup()` succeeds
from any state whenever both constructors succeed (appending fresh
background tasks), with no `InvalidLifecycleTransition` error anywhere. -/
theorem C2_no_lifecycle_guard (env : Env) (s : AppState) :
    (shutdown env AppState.init).raised = none ∧
    (shutdown env AppState.init).state = AppState.init ∧
    (env.sensors.ctorFail = none → env.processor.ctorFail = none →
      (startup env s).err = none) := by
  refine ⟨rfl, rfl, fun h1 h2 => ?_⟩
  simp [startup, h1, h2, startBackgroundServices]

/-- C2, witness for the amended theorem at a concrete input. -/
theorem C2_no_lifecycle_guard_witness :
    benignEnv.sensors.ctorFail = none ∧ benignEnv.processor.ctorFail = none ∧
    (startup benignEnv runningState).err = none :=
  ⟨rfl, rfl, (C2_no_lifecycle_guard benignEnv runningState).2.2 rfl rfl⟩

/-! ### Claim C3 -/

/-- C3, counterexample: the claim says that when the Nth service fails
during startup, `stop()` has been invoked exactly once on each earlier
service before `startup()` raises.  When the data processor's constructor
fails, `startup()` re-raises with the sensor simulator constructed but its
stop-invocation count still 0 — no rollback `stop()` is ever attempted. -/
theorem C3_counterexample :
    (startup processorCtorFailEnv AppState.init).err
      = some (PyExn.exn "config missing") ∧
    (startup processorCtorFailEnv AppState.init).state.sensor_simulator
      = some ⟨false, 0⟩ ∧
    (startup processorCtorFailEnv AppState.init).state.background_tasks = [] :=
  ⟨rfl, rfl, rfl⟩

/-- C3, amended: if the second service fails during construction,
`startup()` aborts the remaining steps and re-raises the original
exception, with no `stop()` invoked on the already-constructed first
service (its invocation count is 0) and no background unit spawned. -/
theorem C3_no_rollback (env : Env) (msg : String)
    (h1 : env.sensors.ctorFail = none)
    (h2 : env.processor.ctorFail = some msg) :
    (startup env AppState.init).err = some (PyExn.exn msg) ∧
    (startup env AppState.init).state.sensor_simulator = some ⟨false, 0⟩ ∧
    (startup env AppState.init).state.background_tasks = [] := by
  simp [startup, h1, h2, newSvc, AppState.init]

/-- C3, witness for the amended theorem at a concrete input. -/
theorem C3_no_rollback_witness :
    processorCtorFailEnv.sensors.ctorFail = none ∧
    processorCtorFailEnv.processor.ctorFail = some "config missing" ∧
    (startup processorCtorFailEnv AppState.init).state.sensor_simulator
      = some ⟨false, 0⟩ :=
  ⟨rfl, rfl, (C3_no_rollback processorCtorFailEnv "config missing" rfl rfl).2.1⟩

/-! ### Claim C4 -/

/-- C4, counterexample: the claim says `shutdown()` always returns within
a bounded time even if a service's `stop()` hangs.  With a sensor
simulator whose `stop()` hangs, startup succeeds but the subsequent
`shutdown()` never returns: the source has no timeout around any await. -/
theorem C4_counterexample :
    (startup sensorStopHangsEnv AppState.init).err = none ∧
    (shutdown sensorStopHangsEnv
        (startup sensorStopHangsEnv AppState.init).state).hangs = true :=
  ⟨rfl, rfl⟩

/-- C4, amended: `shutdown()` has no timeout.  It returns whenever every
background task honours cancellation and neither service's `stop()` hangs;
a unit that ignores cancellation or a `stop()` that hangs blocks
`shutdown()` forever. -/
theorem C4_shutdown_returns_when_benign (env : Env) (s : AppState)
    (ht : ∀ t ∈ s.background_tasks, t.ignoresCancel = false)
    (hs : env.sensors.stopHangs = false)
    (hp : env.processor.stopHangs = false) :
    (shutdown env s).hangs = false := by
  have hc := cancelTasks_not_hung_of_no_ignore s.background_tasks ht
  unfold shutdown
  rw [if_neg (by simp [hc])]
  rcases hsens : s.sensor_simulator with _ | v
  · simp only [stopAttempt]
    unfold stopProcessorPhase
    rcases hproc : s.data_processor with _ | w
    · simp [stopAttempt]
    · simp only [stopAttempt, hp, if_neg]
      rcases env.processor.stopRaise with _ | m <;> simp
  · simp only [stopAttempt, hs, if_neg]
    rcases env.sensors.stopRaise with _ | m
    · simp only []
      unfold stopProcessorPhase
      rcases hproc : s.data_processor with _ | w
      · simp [stopAttempt]
      · simp only [stopAttempt, hp, if_neg]
        rcases env.processor.stopRaise with _ | m2 <;> simp
    · simp

/-- C4, witness for the amended theorem at a concrete input. -/
theorem C4_shutdown_returns_when_benign_witness :
    (∀ t ∈ runningState.background_tasks, t.ignoresCancel = false) ∧
    benignEnv.sensors.stopHangs = false ∧
    benignEnv.processor.stopHangs = false ∧
    (shutdown benignEnv runningState).hangs = false :=
  ⟨by decide, rfl, rfl,
    C4_shutdown_returns_when_benign benignEnv runningState (by decide) rfl rfl⟩

/-! ### Claim C5 -/

/-- C5: `shutdown()` never lets an exception escape: its whole body is
wrapped in `try ... except Exception`, which logs the error.  For every
service behaviour (including a `stop()` that raises) and every application
state, the exception escaping `shutdown()` is `none`. -/
theorem C5_shutdown_never_raises (env : Env) (s : AppState) :
    (shutdown env s).raised = none := by
  unfold shutdown
  dsimp only
  split
  · rfl
  · split
    · unfold stopProcessorPhase
      split <;> rfl
    · rfl
    · rfl
    · unfold stopProcessorPhase
      split <;> rfl

/-! ### Claim C6 -/

/-- C6, counterexample: the claim says the cancellation signal is
delivered to every unit before the wait for termination begins.  In the
source the loop cancels and awaits one task at a time: in the benign
two-task run the await of the sensor task happens before the cancellation
of the processor task, so not every cancel precedes every await. -/
theorem C6_counterexample :
    (shutdown benignEnv runningState).events =
      [Event.cancel "sensor_simulator", Event.awaitTask "sensor_simulator",
       Event.cancel "data_processor", Event.awaitTask "data_processor",
       Event.stopCall "sensor_simulator", Event.stopCall "data_processor"] ∧
    beforeAll Event.isCancel Event.isAwait
      (shutdown benignEnv runningState).events = false :=
  ⟨rfl, rfl⟩

/-- C6, amended: `shutdown()` cancels and awaits each unit in list order,
one unit at a time (the next unit's cancellation comes after the previous
unit's await), there is no bounded wait and no forced teardown, and all
cancellation/await activity precedes every explicit `stop()` call. -/
theorem C6_cancel_await_before_stops (env : Env) (s : AppState) :
    beforeAll (fun e => e.isCancel || e.isAwait) Event.isStop
      (shutdown env s).events = true := by
  have hev := cancelTasks_events_cancel_or_await s.background_tasks
  unfold shutdown
  dsimp only
  split
  · exact beforeAll_of_all_not_right _ _ _
      (all_not_stop_of_cancel_or_await _ hev)
  · split
    · unfold stopProcessorPhase
      split
      · exact beforeAll_of_all_not_right _ _ _
          (all_not_stop_of_cancel_or_await _ hev)
      · exact beforeAll_ca_stop _ _ hev (by decide)
      · exact beforeAll_ca_stop _ _ hev (by decide)
      · exact beforeAll_ca_stop _ _ hev (by decide)
    · exact beforeAll_ca_stop _ _ hev (by decide)
    · exact beforeAll_ca_stop _ _ hev (by decide)
    · unfold stopProcessorPhase
      split
      · exact beforeAll_ca_stop _ _ hev (by decide)
      · rw [List.append_assoc]
        exact beforeAll_ca_stop _ _ hev (by decide)
      · rw [List.append_assoc]
        exact beforeAll_ca_stop _ _ hev (by decide)
      · rw [List.append_assoc]
        exact beforeAll_ca_stop _ _ hev (by decide)

/-! ### Claim C7 -/

/-- C7, counterexample: the claim says a startup failure of the "sensors"
service with cause "config missing" raises a `StartupError` carrying the
unit name and the cause.  The source re-raises the original exception with
a bare `raise`, attaching nothing: the escaping exception is exactly
`exn "config missing"`, and it is the very same exception value whether
the sensor simulator or the data processor was the failing unit, so it
cannot carry the failing unit's name. -/
theorem C7_counterexample :
    (startup sensorCtorFailEnv AppState.init).err
      = some (PyExn.exn "config missing") ∧
    (startup sensorCtorFailEnv AppState.init).err
      = (startup processorCtorFailEnv AppState.init).err :=
  ⟨rfl, rfl⟩

/-- C7, amended: when the sensor simulator fails to construct with a cause,
`startup()` re-raises that original exception unchanged (no `StartupError`
wrapper and no unit name attached), the application state is left exactly
as it was, and health reports both services as not running (though with
the constant overall status "healthy"). -/
theorem C7_startup_reraises_cause (bp : SvcBehavior) (msg : String) :
    (startup ⟨⟨some msg, none, false, false⟩, bp⟩ AppState.init).err
      = some (PyExn.exn msg) ∧
    (startup ⟨⟨some msg, none, false, false⟩, bp⟩ AppState.init).state
      = AppState.init ∧
    health_check (startup ⟨⟨some msg, none, false, false⟩, bp⟩ AppState.init).state
      = ⟨"healthy", false, false⟩ :=
  ⟨rfl, rfl, rfl⟩

/-! ### Claim C8 -/

/-- C8: `health_check` is a total function of the application state — it
returns a snapshot in every state and cannot raise (the source reads the
two attributes with a `None` guard).  On a fresh application
(Uninitialized) and after a benign startup/shutdown cycle (Stopped) it
reports both services as not running. -/
theorem C8_health_total_never_running_when_stopped (env : Env)
    (hs : env.sensors = benignB) (hp : env.processor = benignB) :
    (health_check AppState.init).sensors = false ∧
    (health_check AppState.init).processor = false ∧
    (health_check (shutdown env (startup env AppState.init).state).state).sensors
      = false ∧
    (health_check (shutdown env (startup env AppState.init).state).state).processor
      = false := by
  obtain ⟨es, ep⟩ := env
  have hs' : es = benignB := hs
  have hp' : ep = benignB := hp
  subst hs'
  subst hp'
  exact ⟨rfl, rfl, rfl, rfl⟩

/-- C8, witness at a concrete input. -/
theorem C8_health_total_never_running_when_stopped_witness :
    benignEnv.sensors = benignB ∧ benignEnv.processor = benignB ∧
    (health_check
        (shutdown benignEnv (startup benignEnv AppState.init).state).state).sensors
      = false :=
  ⟨rfl, rfl,
    (C8_health_total_never_running_when_stopped benignEnv rfl rfl).2.2.1⟩

/-! ### Claim C9 -/

/-- C9: shutting down twice is safe.  Whenever a first `shutdown()`
returns (does not hang), a second `shutdown()` from the resulting state
also returns, lets no exception escape, and leaves the observable state
(running flags and task statuses) exactly as after the first call: the
tasks are already finished, so cancelling and awaiting them again is a
no-op, and each `stop()` path changes nothing observable the second
time. -/
theorem C9_shutdown_idempotent (env : Env) (s : AppState)
    (h : (shutdown env s).hangs = false) :
    (shutdown env (shutdown env s).state).raised = none ∧
    (shutdown env (shutdown env s).state).hangs = false ∧
    observable (shutdown env (shutdown env s).state).state
      = observable (shutdown env s).state := by
  obtain ⟨⟨scf, ssr, ssh, sic⟩, ⟨pcf, psr, psh, pic⟩⟩ := env
  obtain ⟨sens, proc, tasks⟩ := s
  have hc : (cancelTasks tasks).hung = false := by
    cases hcon : (cancelTasks tasks).hung
    · rfl
    · exfalso
      unfold shutdown at h
      dsimp only at h
      rw [if_pos hcon] at h
      simp at h
  have htasks := cancelTasks_tasks_of_not_hung tasks hc
  have hdone := cancelTasks_of_all_done (tasks.map BgTask.markDone)
      (markDone_all_done tasks)
  have hd1 := hdone.1
  have hd2 := hdone.2
  rcases sens with _ | v <;> rcases proc with _ | w <;>
    cases ssh <;> cases psh <;> rcases ssr with _ | m1 <;> rcases psr with _ | m2 <;>
      simp_all [shutdown, stopProcessorPhase, stopAttempt, observable,
        Svc.stopOk, BgTask.markDone]

/-- C9, witness at a concrete input. -/
theorem C9_shutdown_idempotent_witness :
    (shutdown benignEnv runningState).hangs = false ∧
    observable (shutdown benignEnv (shutdown benignEnv runningState).state).state
      = observable (shutdown benignEnv runningState).state :=
  ⟨rfl, (C9_shutdown_idempotent benignEnv runningState rfl).2.2⟩

/-! ### Claim C10 -/

/-- C10: in `startup()` both services are fully constructed before any
background unit is spawned (`_start_background_services` runs only after
both assignments), so whenever the set of background tasks is non-empty
both service attributes are set, and a construction failure of the second
service happens with no background task yet started. -/
theorem C10_construct_before_spawn (env : Env) (s : AppState)
    (h : s.background_tasks = []) :
    beforeAll Event.isCtor Event.isSpawn (startup env s).events = true ∧
    ((startup env s).state.background_tasks ≠ [] →
      (startup env s).state.sensor_simulator.isSome = true ∧
      (startup env s).state.data_processor.isSome = true) ∧
    (∀ msg, env.processor.ctorFail = some msg →
      (startup env s).state.background_tasks = []) := by
  obtain ⟨⟨scf, ssr, ssh, sic⟩, ⟨pcf, psr, psh, pic⟩⟩ := env
  rcases scf with _ | m1 <;> rcases pcf with _ | m2 <;>
    simp [startup, startBackgroundServices, beforeAll, h, newSvc,
      Event.isCtor, Event.isSpawn]

/-- C10, witness at a concrete input. -/
theorem C10_construct_before_spawn_witness :
    AppState.init.background_tasks = [] ∧
    processorCtorFailEnv.processor.ctorFail = some "config missing" ∧
    (startup processorCtorFailEnv AppState.init).state.background_tasks = [] :=
  ⟨rfl, rfl,
    (C10_construct_before_spawn processorCtorFailEnv AppState.init rfl).2.2
      "config missing" rfl⟩

end EnvMonitor
